import Mathlib

/-!
Verification of the decaf-emu IPC + filesystem command pipeline.

This file gives a shallow embedding of the relevant parts of
`src/libdecaf/src/modules/coreinit/coreinit_ipc.cpp`,
`src/libdecaf/src/modules/coreinit/coreinit_fs_cmdblock.cpp` and
`src/libdecaf/src/kernel/kernel_ios.cpp`, and proves the stated
properties of those functions.

Machine integers are modelled as `Nat`/`Int`; 32-bit wraparound is made
explicit (`u32add`, `u32sub`) where the source performs `uint32_t`
arithmetic.  The capacity constant `IPCBufferCount` lives in a header
that is not part of the sources, so the FIFO development is parametric
in the capacity `N`.
-/

/-- Transport error codes used by the coreinit IPC driver
(`IOSError` enumeration; only the members used by the embedded
functions are modelled). -/
inductive IOSError where
  | OK
  | QFull
  | QEmpty
  | NotReady
deriving DecidableEq, Repr

/-- The per-driver fixed capacity ring FIFO of `coreinit_ipc.cpp`
(`IPCDriverFIFO`).  `requests` holds the slot array; slots carry request
identifiers (the source stores pointers).  `popIndex = -1` is the
empty sentinel. -/
structure IPCDriverFIFO where
  pushIndex : Int
  popIndex : Int
  count : Nat
  maxCount : Nat
  requests : List (Option Nat)
deriving DecidableEq, Repr

/-- Embeds `ipcDriverFifoInit` (coreinit_ipc.cpp lines 114-125) for a
FIFO of capacity `N`. -/
def ipcDriverFifoInit (N : Nat) : IPCDriverFIFO :=
  { pushIndex := 0
    popIndex := -1
    count := 0
    maxCount := 0
    requests := List.replicate N none }

/-- Embeds `ipcDriverFifoPush` (coreinit_ipc.cpp lines 134-156). -/
def ipcDriverFifoPush (N : Nat) (fifo : IPCDriverFIFO) (request : Nat) :
    IOSError × IPCDriverFIFO :=
  if fifo.pushIndex = fifo.popIndex then
    (IOSError.QFull, fifo)
  else
    (IOSError.OK,
     { pushIndex := (fifo.pushIndex + 1) % (N : Int)
       popIndex := if fifo.popIndex = -1 then fifo.pushIndex else fifo.popIndex
       count := fifo.count + 1
       maxCount := if fifo.count + 1 > fifo.maxCount then fifo.count + 1 else fifo.maxCount
       requests := fifo.requests.set fifo.pushIndex.toNat (some request) })

/-- Embeds `ipcDriverFifoPop` (coreinit_ipc.cpp lines 168-187). -/
def ipcDriverFifoPop (N : Nat) (fifo : IPCDriverFIFO) :
    IOSError × Option Nat × IPCDriverFIFO :=
  if fifo.popIndex = -1 then
    (IOSError.QEmpty, none, fifo)
  else
    (IOSError.OK, fifo.requests.getD fifo.popIndex.toNat none,
     { pushIndex := fifo.pushIndex
       popIndex := if fifo.count - 1 = 0 then -1 else (fifo.popIndex + 1) % (N : Int)
       count := fifo.count - 1
       maxCount := fifo.maxCount
       requests := fifo.requests })

/-- A FIFO operation: the two mutators of the ring. -/
inductive FifoOp where
  | push (request : Nat)
  | pop
deriving DecidableEq, Repr

/-- One step of FIFO execution. -/
def fifoStep (N : Nat) (fifo : IPCDriverFIFO) : FifoOp → IPCDriverFIFO
  | FifoOp.push r => (ipcDriverFifoPush N fifo r).2
  | FifoOp.pop => (ipcDriverFifoPop N fifo).2.2

/-- The FIFO state reached from `ipcDriverFifoInit` by a sequence of
pushes and pops. -/
def runFifo (N : Nat) (ops : List FifoOp) : IPCDriverFIFO :=
  ops.foldl (fifoStep N) (ipcDriverFifoInit N)

/-- Structural invariant of a capacity-`N` driver FIFO. -/
def FifoInv (N : Nat) (f : IPCDriverFIFO) : Prop :=
  f.count ≤ N ∧
  (f.popIndex = -1 ↔ f.count = 0) ∧
  0 ≤ f.pushIndex ∧ f.pushIndex < (N : Int) ∧
  (f.count ≠ 0 →
    0 ≤ f.popIndex ∧ f.popIndex < (N : Int) ∧
    f.pushIndex = (f.popIndex + (f.count : Int)) % (N : Int)) ∧
  f.requests.length = N

lemma emod_add_left_cancel (a b n : Int) : (a % n + b) % n = (a + b) % n := by
  conv_lhs => rw [Int.add_emod]
  conv_rhs => rw [Int.add_emod]
  rw [Int.emod_emod_of_dvd a dvd_rfl]

lemma fifoInv_init (N : Nat) (hN : 0 < N) : FifoInv N (ipcDriverFifoInit N) := by
  have hNi : (0 : Int) < (N : Int) := by exact_mod_cast hN
  refine ⟨Nat.zero_le _, by simp [ipcDriverFifoInit], ?_, ?_, ?_, ?_⟩
  · simp [ipcDriverFifoInit]
  · simpa [ipcDriverFifoInit] using hNi
  · simp [ipcDriverFifoInit]
  · simp [ipcDriverFifoInit]

lemma fifoInv_full_iff (N : Nat) (hN : 0 < N) (f : IPCDriverFIFO)
    (hf : FifoInv N f) : f.pushIndex = f.popIndex ↔ f.count = N := by
  obtain ⟨hle, hpop, hp0, hpN, hrel, _⟩ := hf
  have hNi : (0 : Int) < (N : Int) := by exact_mod_cast hN
  constructor
  · intro heq
    by_contra hne
    rcases Nat.eq_zero_or_pos f.count with hc0 | hcpos
    · have := hpop.mpr hc0
      rw [this] at heq
      omega
    · obtain ⟨hq0, hqN, hrep⟩ := hrel (by omega)
      have hcount : f.count < N := lt_of_le_of_ne hle hne
      rw [heq] at hrep
      have hci : (0 : Int) < (f.count : Int) := by exact_mod_cast hcpos
      have hcNi : (f.count : Int) < (N : Int) := by exact_mod_cast hcount
      rcases lt_or_ge (f.popIndex + (f.count : Int)) (N : Int) with hlt | hge
      · rw [Int.emod_eq_of_lt (by omega) hlt] at hrep
        omega
      · have hsub : (f.popIndex + (f.count : Int) - (N : Int)) % (N : Int)
            = (f.popIndex + (f.count : Int)) % (N : Int) :=
          Int.emod_sub_cancel _ _
        rw [← hsub, Int.emod_eq_of_lt (by omega) (by omega)] at hrep
        omega
  · intro hcN
    obtain ⟨hq0, hqN, hrep⟩ := hrel (by omega)
    rw [hrep, hcN]
    have h1 : (f.popIndex + (N : Int)) % (N : Int) = f.popIndex % (N : Int) := by
      have h2 := Int.add_mul_emod_self_left (a := f.popIndex) (b := (N : Int)) (c := 1)
      rw [mul_one] at h2
      exact h2
    rw [h1, Int.emod_eq_of_lt hq0 hqN]

lemma fifo_push_not_full (N : Nat) (f : IPCDriverFIFO) (r : Nat)
    (h : f.pushIndex ≠ f.popIndex) :
    ipcDriverFifoPush N f r =
      (IOSError.OK,
       { pushIndex := (f.pushIndex + 1) % (N : Int)
         popIndex := if f.popIndex = -1 then f.pushIndex else f.popIndex
         count := f.count + 1
         maxCount := if f.count + 1 > f.maxCount then f.count + 1 else f.maxCount
         requests := f.requests.set f.pushIndex.toNat (some r) }) := by
  unfold ipcDriverFifoPush
  rw [if_neg h]

lemma fifo_pop_not_empty (N : Nat) (f : IPCDriverFIFO)
    (h : f.popIndex ≠ -1) :
    ipcDriverFifoPop N f =
      (IOSError.OK, f.requests.getD f.popIndex.toNat none,
       { pushIndex := f.pushIndex
         popIndex := if f.count - 1 = 0 then -1 else (f.popIndex + 1) % (N : Int)
         count := f.count - 1
         maxCount := f.maxCount
         requests := f.requests }) := by
  unfold ipcDriverFifoPop
  rw [if_neg h]

lemma fifoInv_push (N : Nat) (hN : 0 < N) (f : IPCDriverFIFO)
    (hf : FifoInv N f) (r : Nat) : FifoInv N (ipcDriverFifoPush N f r).2 := by
  have hNi : (0 : Int) < (N : Int) := by exact_mod_cast hN
  by_cases hfull : f.pushIndex = f.popIndex
  · unfold ipcDriverFifoPush
    rw [if_pos hfull]
    exact hf
  · obtain ⟨hle, hpop, hp0, hpN, hrel, hlen⟩ := hf
    have hcnt : f.count < N := by
      rcases Nat.lt_or_ge f.count N with h | h
      · exact h
      · have hcN : f.count = N := le_antisymm hle h
        exact absurd
          ((fifoInv_full_iff N hN f ⟨hle, hpop, hp0, hpN, hrel, hlen⟩).mpr hcN) hfull
    rw [fifo_push_not_full N f r hfull]
    unfold FifoInv
    dsimp only
    refine ⟨by omega, ?_, Int.emod_nonneg _ (by omega), Int.emod_lt_of_pos _ hNi, ?_, ?_⟩
    · constructor
      · intro h
        by_cases hemp : f.popIndex = -1
        · rw [if_pos hemp] at h; omega
        · rw [if_neg hemp] at h; exact absurd h hemp
      · intro h; omega
    · intro _
      by_cases hemp : f.popIndex = -1
      · have hc0 : f.count = 0 := hpop.mp hemp
        rw [if_pos hemp]
        refine ⟨hp0, hpN, ?_⟩
        rw [hc0]
        norm_num
      · obtain ⟨hq0, hqN, hrep⟩ := hrel (fun h => hemp (hpop.mpr h))
        rw [if_neg hemp]
        refine ⟨hq0, hqN, ?_⟩
        rw [hrep]
        rw [emod_add_left_cancel]
        congr 1
        push_cast
        ring
    · simpa using hlen

lemma fifoInv_pop (N : Nat) (hN : 0 < N) (f : IPCDriverFIFO)
    (hf : FifoInv N f) : FifoInv N (ipcDriverFifoPop N f).2.2 := by
  have hNi : (0 : Int) < (N : Int) := by exact_mod_cast hN
  by_cases hemp : f.popIndex = -1
  · unfold ipcDriverFifoPop
    rw [if_pos hemp]
    exact hf
  · obtain ⟨hle, hpop, hp0, hpN, hrel, hlen⟩ := hf
    have hcpos : f.count ≠ 0 := fun h => hemp (hpop.mpr h)
    obtain ⟨hq0, hqN, hrep⟩ := hrel hcpos
    rw [fifo_pop_not_empty N f hemp]
    unfold FifoInv
    dsimp only
    refine ⟨by omega, ?_, hp0, hpN, ?_, hlen⟩
    · by_cases hc1 : f.count - 1 = 0
      · rw [if_pos hc1]; exact ⟨fun _ => hc1, fun _ => rfl⟩
      · rw [if_neg hc1]
        constructor
        · intro h
          exfalso
          have hge : 0 ≤ (f.popIndex + 1) % (N : Int) :=
            Int.emod_nonneg _ (by omega)
          omega
        · intro h; exact absurd h hc1
    · intro hc1
      rw [if_neg hc1]
      refine ⟨Int.emod_nonneg _ (by omega), Int.emod_lt_of_pos _ hNi, ?_⟩
      rw [emod_add_left_cancel, hrep]
      congr 1
      have hcast : ((f.count - 1 : Nat) : Int) = (f.count : Int) - 1 := by
        omega
      rw [hcast]
      ring

lemma fifoInv_step (N : Nat) (hN : 0 < N) (f : IPCDriverFIFO)
    (hf : FifoInv N f) (op : FifoOp) : FifoInv N (fifoStep N f op) := by
  cases op with
  | push r => exact fifoInv_push N hN f hf r
  | pop => exact fifoInv_pop N hN f hf

lemma fifoInv_run (N : Nat) (hN : 0 < N) (ops : List FifoOp) :
    FifoInv N (runFifo N ops) := by
  have main : ∀ (l : List FifoOp) (f : IPCDriverFIFO), FifoInv N f →
      FifoInv N (l.foldl (fifoStep N) f) := by
    intro l
    induction l with
    | nil => intro f hf; exact hf
    | cons op rest ih =>
      intro f hf
      exact ih _ (fifoInv_step N hN f hf op)
  exact main ops _ (fifoInv_init N hN)

lemma fifo_push_full (N : Nat) (hN : 0 < N) (f : IPCDriverFIFO)
    (hf : FifoInv N f) (hfull : f.count = N) (r : Nat) :
    ipcDriverFifoPush N f r = (IOSError.QFull, f) := by
  have h := (fifoInv_full_iff N hN f hf).mpr hfull
  unfold ipcDriverFifoPush
  rw [if_pos h]

lemma fifo_pop_empty (N : Nat) (f : IPCDriverFIFO)
    (hf : FifoInv N f) (hemp : f.count = 0) :
    ipcDriverFifoPop N f = (IOSError.QEmpty, none, f) := by
  have h : f.popIndex = -1 := hf.2.1.mpr hemp
  unfold ipcDriverFifoPop
  rw [if_pos h]

/-- The conjunction of the claimed reachable-state FIFO properties:
bounded count, empty-sentinel characterisation, in-range (wrapped)
indices, full pushes rejected without mutation, empty pops rejected
without mutation. -/
def FifoClaimProps (N : Nat) (f : IPCDriverFIFO) : Prop :=
  f.count ≤ N ∧
  (f.count = 0 ↔ f.popIndex = -1) ∧
  (0 ≤ f.pushIndex ∧ f.pushIndex < (N : Int)) ∧
  (f.popIndex = -1 ∨ (0 ≤ f.popIndex ∧ f.popIndex < (N : Int))) ∧
  (f.count = N → ∀ r, ipcDriverFifoPush N f r = (IOSError.QFull, f)) ∧
  (f.count = 0 → ipcDriverFifoPop N f = (IOSError.QEmpty, none, f))

/-- C7: every FIFO state reachable from `ipcDriverFifoInit` by pushes and
pops keeps `count` in `[0, N]`, has `count = 0` exactly when
`popIndex = -1`, keeps both indices wrapped into `[0, N)` (`popIndex`
apart from its `-1` sentinel), rejects a push when full with `QFull` and
no mutation, and rejects a pop when empty with `QEmpty` and no
mutation. -/
theorem ipcDriverFifo_invariants (N : Nat) (hN : 0 < N) (ops : List FifoOp) :
    FifoClaimProps N (runFifo N ops) := by
  have hf := fifoInv_run N hN ops
  obtain ⟨hle, hpop, hp0, hpN, hrel, hlen⟩ := hf
  refine ⟨hle, hpop.symm, ⟨hp0, hpN⟩, ?_, ?_, ?_⟩
  · by_cases h : (runFifo N ops).count = 0
    · exact Or.inl (hpop.mpr h)
    · exact Or.inr ⟨(hrel h).1, (hrel h).2.1⟩
  · intro hfull r
    exact fifo_push_full N hN _ ⟨hle, hpop, hp0, hpN, hrel, hlen⟩ hfull r
  · intro hemp
    exact fifo_pop_empty N _ ⟨hle, hpop, hp0, hpN, hrel, hlen⟩ hemp

theorem ipcDriverFifo_invariants_witness :
    0 < 2 ∧ FifoClaimProps 2 (runFifo 2 [FifoOp.push 7, FifoOp.push 8, FifoOp.pop]) :=
  ⟨by decide, ipcDriverFifo_invariants 2 (by decide) [FifoOp.push 7, FifoOp.push 8, FifoOp.pop]⟩

/-- Driver lifecycle states.  The enumeration lives in a header outside
src/; the spec lists `status ∈ \x7bUninit, Initialised, Open, Closed\x7d`. -/
inductive IPCDriverStatus where
  | Uninit
  | Initialised
  | Open
  | Closed
deriving DecidableEq, Repr

/-- One `IPCDriverRequest` of the per-core driver.  The IPC buffer link
is modelled as the index of the linked buffer inside the driver's
buffer array; callback and context pointers are modelled as optional
tokens. -/
structure IPCDriverRequest where
  ipcBuffer : Option Nat
  asyncCallback : Option Nat
  asyncContext : Option Nat
  allocated : Bool
deriving DecidableEq, Repr

/-- The per-core `IPCDriver` record: the fields touched by
`IPCDriverOpen` and `ipcDriverFreeRequest`. -/
structure IPCDriver where
  status : IPCDriverStatus
  requests : List IPCDriverRequest
  freeFifo : IPCDriverFIFO
  outboundFifo : IPCDriverFIFO
  initialisedRequests : Bool
  failedFreeRequestBlock : Nat
deriving DecidableEq, Repr

/-- Default request value used when indexing off the end of the request
array (never reached under the `length = N` invariant). -/
def ipcNullRequest : IPCDriverRequest :=
  { ipcBuffer := none, asyncCallback := none, asyncContext := none, allocated := false }

/-- The request-initialisation loop of `IPCDriverOpen`
(coreinit_ipc.cpp lines 59-65): request `i` is linked to buffer `i` and
its async callback fields are cleared; `allocated` is not touched. -/
def ipcDriverOpenRequests (N : Nat) (old : List IPCDriverRequest) : List IPCDriverRequest :=
  (List.range N).map (fun i =>
    { ipcBuffer := some i
      asyncCallback := none
      asyncContext := none
      allocated := (old.getD i ipcNullRequest).allocated })

/-- The seeding loop of `IPCDriverOpen` (coreinit_ipc.cpp lines 74-76):
push request indices `0, …, N-1` into a freshly initialised FIFO. -/
def ipcDriverSeedFreeFifo (N : Nat) : IPCDriverFIFO :=
  (List.range N).foldl (fun f i => (ipcDriverFifoPush N f i).2) (ipcDriverFifoInit N)

/-- Embeds `IPCDriverOpen` (coreinit_ipc.cpp lines 47-79). -/
def IPCDriverOpen (N : Nat) (driver : IPCDriver) : IOSError × IPCDriver :=
  if driver.status ≠ IPCDriverStatus.Closed ∧ driver.status ≠ IPCDriverStatus.Initialised then
    (IOSError.NotReady, driver)
  else
    (IOSError.OK,
     { driver with
         requests := ipcDriverOpenRequests N driver.requests
         initialisedRequests := true
         freeFifo := ipcDriverSeedFreeFifo N
         outboundFifo := ipcDriverFifoInit N })

/-- Embeds `ipcDriverFreeRequest` (coreinit_ipc.cpp lines 256-268): the
free-FIFO push happens first, `allocated` is cleared unconditionally
afterwards, and a failed push bumps `failedFreeRequestBlock` and
propagates the error. -/
def ipcDriverFreeRequest (N : Nat) (driver : IPCDriver) (request : Nat) :
    IOSError × IPCDriver :=
  let pushed := ipcDriverFifoPush N driver.freeFifo request
  let requests := driver.requests.set request
    { (driver.requests.getD request ipcNullRequest) with allocated := false }
  if pushed.1 ≠ IOSError.OK then
    (pushed.1,
     { driver with
         freeFifo := pushed.2
         requests := requests
         failedFreeRequestBlock := driver.failedFreeRequestBlock + 1 })
  else
    (pushed.1, { driver with freeFifo := pushed.2, requests := requests })

lemma replicate_set_zero (m : Nat) (hm : 0 < m) (v : Nat) :
    (List.replicate m (none : Option Nat)).set 0 (some v)
      = some v :: List.replicate (m - 1) none := by
  cases m with
  | zero => omega
  | succ m => simp [List.replicate_succ, List.set]

lemma ipcDriverSeedFreeFifo_aux (N : Nat) (hN : 0 < N) :
    ∀ k, k ≤ N →
    (List.range k).foldl (fun f i => (ipcDriverFifoPush N f i).2) (ipcDriverFifoInit N) =
      { pushIndex := (k : Int) % (N : Int)
        popIndex := if k = 0 then -1 else 0
        count := k
        maxCount := k
        requests := (List.range k).map some ++ List.replicate (N - k) none } := by
  intro k
  induction k with
  | zero =>
    intro _
    simp [ipcDriverFifoInit]
  | succ k ih =>
    intro hk
    have hkN : k < N := by omega
    have hkNi : (k : Int) < (N : Int) := by exact_mod_cast hkN
    have hmod : (k : Int) % (N : Int) = (k : Int) := by
      rw [Int.emod_eq_of_lt (by exact_mod_cast Nat.zero_le k) hkNi]
    rw [List.range_succ, List.foldl_append, ih (by omega)]
    simp only [List.foldl_cons, List.foldl_nil]
    rw [fifo_push_not_full]
    · simp only [IPCDriverFIFO.mk.injEq]
      refine ⟨?_, ?_, ?_, ?_, ?_⟩
      · rw [hmod]; push_cast; ring_nf
      · by_cases hk0 : k = 0
        · subst hk0; norm_num
        · rw [if_neg hk0]; norm_num
      · trivial
      · simp
      · rw [hmod, Int.toNat_natCast]
        by_cases hk0 : k = 0
        · subst hk0
          simp only [List.range_zero, List.map_nil, List.nil_append, Nat.sub_zero]
          rw [replicate_set_zero N hN 0]
          simp [List.range_succ]
        · rw [List.set_append_right _ _ (by simp)]
          simp only [List.length_map, List.length_range, Nat.sub_self]
          rw [replicate_set_zero _ (by omega) k]
          simp [List.range_succ, Nat.sub_sub]
    · dsimp only
      rw [hmod]
      by_cases hk0 : k = 0
      · subst hk0
        norm_num
      · rw [if_neg hk0]
        intro h
        exact hk0 (by exact_mod_cast h)

/-- The success postcondition of `IPCDriverOpen` claimed by the spec,
with the amended final conjunct: every request is linked to its buffer
with cleared async fields, both FIFOs are initialised, all `N` requests
are seeded into the free FIFO — and the driver status is left unchanged
(the source never assigns `IPCDriverStatus::Open`). -/
def IPCDriverOpenPost (N : Nat) (d : IPCDriver) : Prop :=
  (IPCDriverOpen N d).1 = IOSError.OK ∧
  (IPCDriverOpen N d).2.requests.length = N ∧
  (∀ i, i < N →
    ((IPCDriverOpen N d).2.requests.getD i ipcNullRequest).ipcBuffer = some i ∧
    ((IPCDriverOpen N d).2.requests.getD i ipcNullRequest).asyncCallback = none ∧
    ((IPCDriverOpen N d).2.requests.getD i ipcNullRequest).asyncContext = none) ∧
  (IPCDriverOpen N d).2.freeFifo.count = N ∧
  (IPCDriverOpen N d).2.freeFifo.requests = (List.range N).map some ∧
  (IPCDriverOpen N d).2.outboundFifo = ipcDriverFifoInit N ∧
  (IPCDriverOpen N d).2.initialisedRequests = true ∧
  (IPCDriverOpen N d).2.status = d.status

/-- C4 (amended): `IPCDriverOpen` returns `NotReady` and leaves the
driver untouched unless the status is `Closed` or `Initialised`; on
success it links each of the `N` requests to its IPC buffer, clears the
async callback fields, initialises both FIFOs, seeds all `N` requests
into the free FIFO — but it does not change the driver status (in
particular it does not set `Open`). -/
theorem IPCDriverOpen_spec (N : Nat) (d : IPCDriver) (hN : 0 < N) :
    ((d.status ≠ IPCDriverStatus.Closed ∧ d.status ≠ IPCDriverStatus.Initialised) →
      IPCDriverOpen N d = (IOSError.NotReady, d)) ∧
    ((d.status = IPCDriverStatus.Closed ∨ d.status = IPCDriverStatus.Initialised) →
      IPCDriverOpenPost N d) := by
  constructor
  · intro h
    unfold IPCDriverOpen
    rw [if_pos h]
  · intro h
    have hcond : ¬(d.status ≠ IPCDriverStatus.Closed ∧ d.status ≠ IPCDriverStatus.Initialised) := by
      rcases h with h | h <;> simp [h]
    have hseed := ipcDriverSeedFreeFifo_aux N hN N (le_refl N)
    unfold IPCDriverOpenPost IPCDriverOpen
    rw [if_neg hcond]
    refine ⟨rfl, ?_, ?_, ?_, ?_, rfl, rfl, rfl⟩
    · simp [ipcDriverOpenRequests]
    · intro i hi
      simp [ipcDriverOpenRequests, List.getD_eq_getElem?_getD, List.getElem?_map,
            List.getElem?_range hi]
    · show (ipcDriverSeedFreeFifo N).count = N
      unfold ipcDriverSeedFreeFifo
      rw [hseed]
    · show (ipcDriverSeedFreeFifo N).requests = (List.range N).map some
      unfold ipcDriverSeedFreeFifo
      rw [hseed]
      simp

/-- A driver sitting in the `Initialised` state, used to exhibit the
status behaviour of `IPCDriverOpen`. -/
def ipcDriverInitialisedState : IPCDriver :=
  { status := IPCDriverStatus.Initialised
    requests := [ipcNullRequest]
    freeFifo := ipcDriverFifoInit 1
    outboundFifo := ipcDriverFifoInit 1
    initialisedRequests := false
    failedFreeRequestBlock := 0 }

/-- C4 counterexample: a successful `IPCDriverOpen` does not set the
driver status to `Open`; starting from `Initialised` the status is still
`Initialised` afterwards. -/
theorem IPCDriverOpen_does_not_set_open :
    (IPCDriverOpen 1 ipcDriverInitialisedState).1 = IOSError.OK ∧
    (IPCDriverOpen 1 ipcDriverInitialisedState).2.status = IPCDriverStatus.Initialised ∧
    (IPCDriverOpen 1 ipcDriverInitialisedState).2.status ≠ IPCDriverStatus.Open := by
  refine ⟨by decide, by decide, by decide⟩

theorem IPCDriverOpen_spec_witness :
    0 < 1 ∧
    (((ipcDriverInitialisedState.status ≠ IPCDriverStatus.Closed ∧
       ipcDriverInitialisedState.status ≠ IPCDriverStatus.Initialised) →
        IPCDriverOpen 1 ipcDriverInitialisedState = (IOSError.NotReady, ipcDriverInitialisedState)) ∧
     ((ipcDriverInitialisedState.status = IPCDriverStatus.Closed ∨
       ipcDriverInitialisedState.status = IPCDriverStatus.Initialised) →
        IPCDriverOpenPost 1 ipcDriverInitialisedState)) :=
  ⟨by decide, IPCDriverOpen_spec 1 ipcDriverInitialisedState (by decide)⟩

/-- C9: `ipcDriverFreeRequest` clears the request's `allocated` flag no
matter whether the free-FIFO push succeeds; when the push fails with
`QFull` it bumps `failedFreeRequestBlock`, returns `QFull`, and leaves
the free FIFO unchanged, so the request ends up neither in the free
FIFO nor marked allocated. -/
theorem ipcDriverFreeRequest_clears_allocated (N : Nat) (d : IPCDriver) (request : Nat)
    (hreq : request < d.requests.length) :
    (((ipcDriverFreeRequest N d request).2.requests.getD request ipcNullRequest).allocated
       = false) ∧
    ((ipcDriverFifoPush N d.freeFifo request).1 = IOSError.QFull →
      (ipcDriverFreeRequest N d request).1 = IOSError.QFull ∧
      (ipcDriverFreeRequest N d request).2.freeFifo = d.freeFifo ∧
      (ipcDriverFreeRequest N d request).2.failedFreeRequestBlock
        = d.failedFreeRequestBlock + 1) := by
  have hset : ∀ (l : List IPCDriverRequest) (v : IPCDriverRequest),
      request < l.length → ((l.set request v).getD request ipcNullRequest) = v := by
    intro l v hl
    rw [List.getD_eq_getElem?_getD, List.getElem?_set_self hl]
    rfl
  constructor
  · unfold ipcDriverFreeRequest
    by_cases h : (ipcDriverFifoPush N d.freeFifo request).1 ≠ IOSError.OK
    · rw [if_pos h]
      dsimp only
      rw [hset _ _ hreq]
    · rw [if_neg h]
      dsimp only
      rw [hset _ _ hreq]
  · intro hfull
    have hnotok : (ipcDriverFifoPush N d.freeFifo request).1 ≠ IOSError.OK := by
      rw [hfull]; decide
    have hunch : (ipcDriverFifoPush N d.freeFifo request).2 = d.freeFifo := by
      unfold ipcDriverFifoPush at hfull ⊢
      by_cases hc : d.freeFifo.pushIndex = d.freeFifo.popIndex
      · rw [if_pos hc]
      · rw [if_neg hc] at hfull
        simp at hfull
    unfold ipcDriverFreeRequest
    rw [if_pos hnotok]
    exact ⟨hfull, hunch, rfl⟩

/-- A driver whose one-slot free FIFO is already full, so that a further
free must fail with `QFull`. -/
def ipcDriverFullFreeFifoState : IPCDriver :=
  { status := IPCDriverStatus.Open
    requests := [{ ipcBuffer := some 0, asyncCallback := none, asyncContext := none,
                   allocated := true }]
    freeFifo := { pushIndex := 0, popIndex := 0, count := 1, maxCount := 1,
                  requests := [some 0] }
    outboundFifo := ipcDriverFifoInit 1
    initialisedRequests := true
    failedFreeRequestBlock := 0 }

theorem ipcDriverFreeRequest_clears_allocated_witness :
    (0 < ipcDriverFullFreeFifoState.requests.length) ∧
    ((((ipcDriverFreeRequest 1 ipcDriverFullFreeFifoState 0).2.requests.getD 0
         ipcNullRequest).allocated = false) ∧
     ((ipcDriverFifoPush 1 ipcDriverFullFreeFifoState.freeFifo 0).1 = IOSError.QFull →
       (ipcDriverFreeRequest 1 ipcDriverFullFreeFifoState 0).1 = IOSError.QFull ∧
       (ipcDriverFreeRequest 1 ipcDriverFullFreeFifoState 0).2.freeFifo
         = ipcDriverFullFreeFifoState.freeFifo ∧
       (ipcDriverFreeRequest 1 ipcDriverFullFreeFifoState 0).2.failedFreeRequestBlock
         = ipcDriverFullFreeFifoState.failedFreeRequestBlock + 1)) :=
  ⟨by decide, ipcDriverFreeRequest_clears_allocated 1 ipcDriverFullFreeFifoState 0 (by decide)⟩

/-- The identity checks run by `ipcDriverProcessResponses` on a response
buffer's offset (coreinit_ipc.cpp lines 317-319): `decaf_check(index >= 0)`
and `decaf_check(index <= IPCBufferCount)`, for capacity `N`. -/
def ipcResponseIndexChecks (N : Nat) (index : Int) : Bool :=
  decide (0 ≤ index) && decide (index ≤ (N : Int))

/-- In-bounds predicate for the subsequent `driver->requests[index]`
access: the driver owns exactly `N` requests (spec §3, "N requests"), so
the access is in bounds exactly when `0 ≤ index < N`. -/
def ipcResponseIndexInBounds (N : Nat) (index : Int) : Bool :=
  decide (0 ≤ index) && decide (index < (N : Int))

/-- C10: the identity checks in `ipcDriverProcessResponses` do NOT imply
that the following `driver->requests[index]` access is in bounds: the
boundary offset `index = IPCBufferCount` passes both `decaf_check`s yet
indexes one past the end of the `N`-element request array.  The upper
check is off by one (`<=` where `<` is needed). -/
theorem ipcDriverProcessResponses_bounds_check_gap (N : Nat) :
    ipcResponseIndexChecks N (N : Int) = true ∧
    ipcResponseIndexInBounds N (N : Int) = false ∧
    (List.replicate N ipcNullRequest)[(N : Int).toNat]? = none := by
  refine ⟨?_, ?_, ?_⟩
  · simp [ipcResponseIndexChecks]
  · simp [ipcResponseIndexInBounds]
  · simp

/-- IOS error codes returned on the signed reply channel.  The numeric
values live in a header outside src/; the spec only fixes that errors
are negative (`reply < 0 is an ... error`), so representative distinct
negative values are used. -/
def iosErrorNoExists : Int := -6

/-- Modelled from the spec: `InvalidHandle` transport error, a negative
reply code distinct from the other codes used here. -/
def iosErrorInvalidHandle : Int := -4

/-- Kernel-side IOS state: the monotonic handle counter (the function
local `static IOSHandle DeviceHandles = 1` of `iosOpen`), the open
handle table `sOpenDeviceMap` (handles only; devices are abstracted),
and the registered device names `sDeviceMap`. -/
structure IOSKernel where
  deviceHandles : Int
  openHandles : List Int
  deviceNames : List String
deriving DecidableEq, Repr

/-- State after `iosInitDevices` (kernel_ios.cpp lines 197-201): only
`"/dev/fsa"` is registered, no device is open, the handle counter
starts at 1. -/
def iosInitialState : IOSKernel :=
  { deviceHandles := 1
    openHandles := []
    deviceNames := ["/dev/fsa"] }

/-- Embeds `iosOpen` (kernel_ios.cpp lines 106-137).  The result of the
constructed device's own `open(mode)` call is supplied by the
environment as `devOpenResult` (0 is `IOSError::OK`); the device itself
is abstracted away. -/
def iosOpen (st : IOSKernel) (name : String) (devOpenResult : Int) : Int × IOSKernel :=
  if st.deviceNames.contains name = false then
    (iosErrorNoExists, st)
  else if devOpenResult ≠ 0 then
    (devOpenResult, st)
  else
    (st.deviceHandles,
     { st with
         deviceHandles := st.deviceHandles + 1
         openHandles := st.deviceHandles :: st.openHandles })

/-- Embeds `iosClose` (kernel_ios.cpp lines 146-158); the abstracted
device's `close()` reply is `IOSError::OK = 0`. -/
def iosClose (st : IOSKernel) (handle : Int) : Int × IOSKernel :=
  if st.openHandles.contains handle = false then
    (iosErrorInvalidHandle, st)
  else
    (0, { st with openHandles := st.openHandles.erase handle })

/-- A request arriving at the kernel IOS layer: an Open (with the
outcome of the device's own `open` call) or a Close. -/
inductive IOSEvent where
  | openDev (name : String) (devOpenResult : Int)
  | closeDev (handle : Int)
deriving DecidableEq, Repr

/-- One dispatch step. -/
def iosStep (st : IOSKernel) : IOSEvent → Int × IOSKernel
  | IOSEvent.openDev name r => iosOpen st name r
  | IOSEvent.closeDev h => iosClose st h

/-- Replies of the successful `iosOpen` calls along an event trace, in
order: those Opens whose device name is registered and whose device
`open` returned OK. -/
def iosOpenOkReplies : IOSKernel → List IOSEvent → List Int
  | _, [] => []
  | st, e :: es =>
    match e with
    | IOSEvent.openDev name r =>
      if st.deviceNames.contains name ∧ r = 0 then
        (iosOpen st name r).1 :: iosOpenOkReplies (iosOpen st name r).2 es
      else
        iosOpenOkReplies (iosStep st e).2 es
    | IOSEvent.closeDev _ => iosOpenOkReplies (iosStep st e).2 es

/-- Handles allocated by a monotonic counter starting at `c`:
`[c, c+1, …, c+k-1]`. -/
def iosHandleSeq (c : Int) (k : Nat) : List Int :=
  (List.range k).map (fun (i : Nat) => c + (i : Int))

lemma iosHandleSeq_cons (c : Int) (k : Nat) :
    c :: iosHandleSeq (c + 1) k = iosHandleSeq c (k + 1) := by
  unfold iosHandleSeq
  rw [List.range_succ_eq_map, List.map_cons, List.map_map]
  congr 1
  · simp
  · exact congrArg (fun f => List.map f (List.range k))
      (funext fun i => by simp [Function.comp]; ring)

lemma iosOpen_fail_state (st : IOSKernel) (name : String) (r : Int)
    (h : ¬(st.deviceNames.contains name ∧ r = 0)) : (iosOpen st name r).2 = st := by
  unfold iosOpen
  by_cases hc : st.deviceNames.contains name = false
  · rw [if_pos hc]
  · rw [if_neg hc]
    have hr : r ≠ 0 := by
      intro hr0
      exact h ⟨by revert hc; cases st.deviceNames.contains name <;> simp, hr0⟩
    rw [if_pos hr]

lemma iosOpen_ok (st : IOSKernel) (name : String) (r : Int)
    (h : st.deviceNames.contains name ∧ r = 0) :
    iosOpen st name r =
      (st.deviceHandles,
       { st with
           deviceHandles := st.deviceHandles + 1
           openHandles := st.deviceHandles :: st.openHandles }) := by
  unfold iosOpen
  rw [if_neg (by rw [h.1]; simp), if_neg (by rw [h.2]; simp)]

lemma iosClose_state_counter (st : IOSKernel) (h : Int) :
    (iosClose st h).2.deviceHandles = st.deviceHandles ∧
    (iosClose st h).2.deviceNames = st.deviceNames := by
  unfold iosClose
  by_cases hc : st.openHandles.contains h = false
  · rw [if_pos hc]; exact ⟨rfl, rfl⟩
  · rw [if_neg hc]; exact ⟨rfl, rfl⟩

lemma iosOpenOkReplies_shape (events : List IOSEvent) :
    ∀ st : IOSKernel, ∃ k : Nat,
      iosOpenOkReplies st events = iosHandleSeq st.deviceHandles k := by
  induction events with
  | nil =>
    intro st
    exact ⟨0, by simp [iosOpenOkReplies, iosHandleSeq]⟩
  | cons e es ih =>
    intro st
    cases e with
    | openDev name r =>
      by_cases hc : st.deviceNames.contains name ∧ r = 0
      · obtain ⟨k, hk⟩ := ih (iosOpen st name r).2
        refine ⟨k + 1, ?_⟩
        simp only [iosOpenOkReplies]
        rw [if_pos hc, hk, iosOpen_ok st name r hc]
        exact iosHandleSeq_cons st.deviceHandles k
      · obtain ⟨k, hk⟩ := ih (iosStep st (IOSEvent.openDev name r)).2
        refine ⟨k, ?_⟩
        simp only [iosOpenOkReplies]
        rw [if_neg hc, hk]
        have hst : (iosStep st (IOSEvent.openDev name r)).2 = st :=
          iosOpen_fail_state st name r hc
        rw [hst]
    | closeDev h =>
      obtain ⟨k, hk⟩ := ih (iosStep st (IOSEvent.closeDev h)).2
      refine ⟨k, ?_⟩
      simp only [iosOpenOkReplies]
      rw [hk]
      have hcl := iosClose_state_counter st h
      show iosHandleSeq (iosClose st h).2.deviceHandles k = _
      rw [hcl.1]

/-- C8: along any trace of Open/Close requests starting from the
initial kernel state, every reply of a successful `iosOpen` is
positive, the successful replies are strictly increasing (so a handle
is never reused, even after a Close), and the concrete trace
Open, Open, Close(1), Open yields handles 1, 2, 3. -/
theorem iosOpen_handles_monotonic (events : List IOSEvent) :
    (∀ h ∈ iosOpenOkReplies iosInitialState events, 0 < h) ∧
    (iosOpenOkReplies iosInitialState events).Pairwise (· < ·) ∧
    iosOpenOkReplies iosInitialState
      [IOSEvent.openDev "/dev/fsa" 0, IOSEvent.openDev "/dev/fsa" 0,
       IOSEvent.closeDev 1, IOSEvent.openDev "/dev/fsa" 0] = [1, 2, 3] := by
  obtain ⟨k, hk⟩ := iosOpenOkReplies_shape events iosInitialState
  rw [hk]
  refine ⟨?_, ?_, ?_⟩
  · intro h hmem
    simp only [iosHandleSeq, iosInitialState, List.mem_map, List.mem_range] at hmem
    obtain ⟨i, _, rfl⟩ := hmem
    omega
  · apply List.Pairwise.map _ _ (List.pairwise_lt_range k)
    intro a b hab
    simp only [iosInitialState]
    omega
  · decide

/-- FSAStatus device status codes as `Int` wire values.  The enum header
is not under src/; the spec fixes only that these are distinct negative
categories, so the standard Wii-U taxonomy values are used.  Every claim
below depends only on distinctness and sign, never on the exact
numbers. -/
def FSAStatus.OK : Int := 0
def FSAStatus.NotInit : Int := -1
def FSAStatus.Busy : Int := -2
def FSAStatus.Cancelled : Int := -3
def FSAStatus.EndOfDir : Int := -4
def FSAStatus.EndOfFile : Int := -5
def FSAStatus.MaxMountpoints : Int := -16
def FSAStatus.MaxVolumes : Int := -17
def FSAStatus.MaxClients : Int := -18
def FSAStatus.MaxFiles : Int := -19
def FSAStatus.MaxDirs : Int := -20
def FSAStatus.AlreadyOpen : Int := -21
def FSAStatus.AlreadyExists : Int := -22
def FSAStatus.NotFound : Int := -23
def FSAStatus.NotEmpty : Int := -24
def FSAStatus.AccessError : Int := -25
def FSAStatus.PermissionError : Int := -26
def FSAStatus.DataCorrupted : Int := -27
def FSAStatus.StorageFull : Int := -28
def FSAStatus.JournalFull : Int := -29
def FSAStatus.LinkEntry : Int := -30
def FSAStatus.UnavailableCmd : Int := -31
def FSAStatus.UnsupportedCmd : Int := -32
def FSAStatus.InvalidParam : Int := -33
def FSAStatus.InvalidPath : Int := -34
def FSAStatus.InvalidBuffer : Int := -35
def FSAStatus.InvalidAlignment : Int := -36
def FSAStatus.InvalidClientHandle : Int := -37
def FSAStatus.InvalidFileHandle : Int := -38
def FSAStatus.InvalidDirHandle : Int := -39
def FSAStatus.NotFile : Int := -40
def FSAStatus.NotDir : Int := -41
def FSAStatus.FileTooBig : Int := -42
def FSAStatus.OutOfRange : Int := -43
def FSAStatus.OutOfResources : Int := -44
def FSAStatus.MediaNotReady : Int := -45
def FSAStatus.MediaError : Int := -46
def FSAStatus.WriteProtected : Int := -47
def FSAStatus.InvalidMedia : Int := -48

/-- FSStatus client-level status codes as `Int` values (non-negative =
success / count; negative = taxonomised error).  Values modelled under
the same convention as `FSAStatus`. -/
def FSStatus.OK : Int := 0
def FSStatus.Cancelled : Int := -1
def FSStatus.End : Int := -2
def FSStatus.Max : Int := -3
def FSStatus.AlreadyOpen : Int := -4
def FSStatus.Exists : Int := -5
def FSStatus.NotFound : Int := -6
def FSStatus.NotFile : Int := -7
def FSStatus.NotDirectory : Int := -8
def FSStatus.AccessError : Int := -9
def FSStatus.PermissionError : Int := -10
def FSStatus.FileTooBig : Int := -11
def FSStatus.StorageFull : Int := -12
def FSStatus.JournalFull : Int := -13
def FSStatus.UnsupportedCmd : Int := -14
def FSStatus.FatalError : Int := -1024

/-- FSErrorFlag bit masks.  Modelled from the spec: "a bitmask with one
bit per category plus an `All` (= union) and `None` (= 0)". -/
def FSErrorFlag.None : Nat := 0
def FSErrorFlag.Max : Nat := 1
def FSErrorFlag.AlreadyOpen : Nat := 2
def FSErrorFlag.Exists : Nat := 4
def FSErrorFlag.NotFound : Nat := 8
def FSErrorFlag.NotFile : Nat := 16
def FSErrorFlag.NotDir : Nat := 32
def FSErrorFlag.AccessError : Nat := 64
def FSErrorFlag.PermissionError : Nat := 128
def FSErrorFlag.FileTooBig : Nat := 256
def FSErrorFlag.StorageFull : Nat := 512
def FSErrorFlag.UnsupportedCmd : Nat := 1024
def FSErrorFlag.JournalFull : Nat := 2048
def FSErrorFlag.All : Nat := 4294967295

/-- The per-client volume-state machine states (spec §3). -/
inductive FSVolumeState where
  | Initial
  | Ready
  | NoMedia
  | WrongMedia
  | MediaError
  | DataCorrupted
  | Fatal
deriving DecidableEq, Repr

/-- FSCmdBlock lifecycle states (spec §3; the enum values live in a
header outside src/). -/
inductive FSCmdBlockStatus where
  | Initialised
  | QueuedCommand
  | InProgress
  | Cancelled
deriving DecidableEq, Repr

/-- Which finish function a requeue installs (`fsCmdBlockFinishCmdFn`
or `fsCmdBlockFinishReadCmdFn`). -/
inductive FinishFnTag where
  | finishCmd
  | finishReadCmd
deriving DecidableEq, Repr

/-- The modelled `FSClientBody` fields touched by
`fsCmdBlockHandleResult`: the registered flag, `lastError`, the FSM
state and `lastDequeuedCommand` (as an optional block id). -/
structure FSClientBody where
  registered : Bool
  lastError : Int
  fsmState : FSVolumeState
  lastDequeuedCommand : Option Nat
deriving DecidableEq, Repr

/-- The modelled `FSCmdBlockBody` fields used by
`fsCmdBlockHandleResult` and `fsCmdBlockPrepareAsync`. -/
structure FSCmdBlockBody where
  id : Nat
  fsaStatus : Int
  errorMask : Nat
  status : FSCmdBlockStatus
  clientBody : Option Nat
  finishCmdFn : Option FinishFnTag
deriving DecidableEq, Repr

/-- The observable outcome of `fsCmdBlockHandleResult`: either an early
return (unregistered-client cancel, an FSM transition with no delivery,
a Busy front-requeue, the `InvalidMedia` swallow, the `decaf_abort`ing
TODO statuses) or delivery of a translated status through
`fsCmdBlockReplyResult`. -/
inductive HandleResultAction where
  | nop
  | finishCancelled
  | fsmTransition (state : FSVolumeState)
  | requeueFront
  | swallow
  | abortTodo
  | deliver (result : Int)
deriving DecidableEq, Repr

/-- Outcome of the `switch (blockBody->fsaStatus)` of
`fsCmdBlockHandleResult` (coreinit_fs_cmdblock.cpp lines 246-337),
entered with `result = fsaStatus` and `errorFlags = All`:
`normal result errorFlags` stands for falling out of the switch with
those values; the other constructors are the control-flow cases. -/
inductive TranslateResult where
  | normal (result : Int) (errorFlags : Nat)
  | requeueBusy
  | swallow
  | abortTodo
deriving DecidableEq, Repr

/-- The switch of `fsCmdBlockHandleResult` as a function of the FSA
status (coreinit_fs_cmdblock.cpp lines 246-337). -/
def fsCmdBlockTranslateStatus (s : Int) : TranslateResult :=
  if s = FSAStatus.NotInit ∨ s = FSAStatus.OutOfRange ∨ s = FSAStatus.OutOfResources ∨
     s = FSAStatus.LinkEntry ∨ s = FSAStatus.UnavailableCmd ∨ s = FSAStatus.InvalidParam ∨
     s = FSAStatus.InvalidPath ∨ s = FSAStatus.InvalidBuffer ∨ s = FSAStatus.InvalidAlignment ∨
     s = FSAStatus.InvalidClientHandle ∨ s = FSAStatus.InvalidFileHandle ∨
     s = FSAStatus.InvalidDirHandle then
    TranslateResult.normal s FSErrorFlag.None
  else if s = FSAStatus.Busy then
    TranslateResult.requeueBusy
  else if s = FSAStatus.Cancelled then
    TranslateResult.normal FSStatus.Cancelled FSErrorFlag.All
  else if s = FSAStatus.EndOfDir then
    TranslateResult.normal FSStatus.End FSErrorFlag.All
  else if s = FSAStatus.EndOfFile then
    TranslateResult.normal FSStatus.End FSErrorFlag.All
  else if s = FSAStatus.MaxMountpoints ∨ s = FSAStatus.MaxVolumes ∨ s = FSAStatus.MaxClients ∨
          s = FSAStatus.MaxFiles ∨ s = FSAStatus.MaxDirs then
    TranslateResult.normal FSStatus.Max FSErrorFlag.Max
  else if s = FSAStatus.AlreadyOpen then
    TranslateResult.normal FSStatus.AlreadyOpen FSErrorFlag.AlreadyOpen
  else if s = FSAStatus.NotFound then
    TranslateResult.normal FSStatus.NotFound FSErrorFlag.NotFound
  else if s = FSAStatus.AlreadyExists ∨ s = FSAStatus.NotEmpty then
    TranslateResult.normal FSStatus.Exists FSErrorFlag.Exists
  else if s = FSAStatus.AccessError then
    TranslateResult.normal FSStatus.AccessError FSErrorFlag.AccessError
  else if s = FSAStatus.PermissionError then
    TranslateResult.normal FSStatus.PermissionError FSErrorFlag.PermissionError
  else if s = FSAStatus.DataCorrupted then
    TranslateResult.abortTodo
  else if s = FSAStatus.StorageFull then
    TranslateResult.normal FSStatus.StorageFull FSErrorFlag.StorageFull
  else if s = FSAStatus.JournalFull then
    TranslateResult.normal FSStatus.JournalFull FSErrorFlag.JournalFull
  else if s = FSAStatus.UnsupportedCmd then
    TranslateResult.normal FSStatus.UnsupportedCmd FSErrorFlag.UnsupportedCmd
  else if s = FSAStatus.NotFile then
    TranslateResult.normal FSStatus.NotFile FSErrorFlag.NotFile
  else if s = FSAStatus.NotDir then
    TranslateResult.normal FSStatus.NotDirectory FSErrorFlag.NotDir
  else if s = FSAStatus.FileTooBig then
    TranslateResult.normal FSStatus.FileTooBig FSErrorFlag.FileTooBig
  else if s = FSAStatus.MediaError then
    TranslateResult.abortTodo
  else if s = FSAStatus.InvalidMedia then
    TranslateResult.swallow
  else
    TranslateResult.normal s FSErrorFlag.All

/-- The `lastDequeuedCommand` clearing step of `fsCmdBlockHandleResult`
(coreinit_fs_cmdblock.cpp lines 345-347). -/
def clearLastDequeued (c : FSClientBody) (block : FSCmdBlockBody) : FSClientBody :=
  if c.lastDequeuedCommand = some block.id then
    { c with lastDequeuedCommand := none }
  else
    c

/-- Embeds `fsCmdBlockHandleResult` (coreinit_fs_cmdblock.cpp lines
220-350).  `fsmSetState`/`fsmEnterState` (defined in a file outside
src/) are modelled, per the spec, as setting the client's FSM state;
the delivered/early-return behaviour is reported as a
`HandleResultAction`. -/
def fsCmdBlockHandleResult (client : FSClientBody) (block : FSCmdBlockBody) :
    HandleResultAction × FSClientBody :=
  if client.registered = false then
    (if block.finishCmdFn.isSome then HandleResultAction.finishCancelled
     else HandleResultAction.nop, client)
  else
    let c1 : FSClientBody := { client with lastError := block.fsaStatus }
    if block.fsaStatus = FSAStatus.MediaNotReady then
      (HandleResultAction.fsmTransition FSVolumeState.WrongMedia,
       { c1 with fsmState := FSVolumeState.WrongMedia })
    else if block.fsaStatus = FSAStatus.WriteProtected then
      (HandleResultAction.fsmTransition FSVolumeState.MediaError,
       { c1 with fsmState := FSVolumeState.MediaError })
    else if block.fsaStatus < 0 then
      match fsCmdBlockTranslateStatus block.fsaStatus with
      | TranslateResult.requeueBusy => (HandleResultAction.requeueFront, c1)
      | TranslateResult.swallow => (HandleResultAction.swallow, c1)
      | TranslateResult.abortTodo => (HandleResultAction.abortTodo, c1)
      | TranslateResult.normal result errorFlags =>
        if block.errorMask &&& errorFlags ≠ 0 then
          (HandleResultAction.fsmTransition FSVolumeState.Fatal,
           { c1 with fsmState := FSVolumeState.Fatal })
        else
          (HandleResultAction.deliver result, clearLastDequeued c1 block)
    else
      (HandleResultAction.deliver block.fsaStatus, clearLastDequeued c1 block)

/-- The translation table of spec §4.7, written from the spec's words:
each row is (FSA status, resulting FSStatus, resulting errorFlags),
restricted to the negative, non-special statuses (everything except
Busy, InvalidMedia, MediaNotReady, WriteProtected, DataCorrupted and
MediaError).  The passthrough rows carry the raw FSA status with
errorFlags None. -/
def specTable47 : List (Int × Int × Nat) :=
  [ (FSAStatus.NotInit, FSAStatus.NotInit, FSErrorFlag.None),
    (FSAStatus.OutOfRange, FSAStatus.OutOfRange, FSErrorFlag.None),
    (FSAStatus.OutOfResources, FSAStatus.OutOfResources, FSErrorFlag.None),
    (FSAStatus.LinkEntry, FSAStatus.LinkEntry, FSErrorFlag.None),
    (FSAStatus.UnavailableCmd, FSAStatus.UnavailableCmd, FSErrorFlag.None),
    (FSAStatus.InvalidParam, FSAStatus.InvalidParam, FSErrorFlag.None),
    (FSAStatus.InvalidPath, FSAStatus.InvalidPath, FSErrorFlag.None),
    (FSAStatus.InvalidBuffer, FSAStatus.InvalidBuffer, FSErrorFlag.None),
    (FSAStatus.InvalidAlignment, FSAStatus.InvalidAlignment, FSErrorFlag.None),
    (FSAStatus.InvalidClientHandle, FSAStatus.InvalidClientHandle, FSErrorFlag.None),
    (FSAStatus.InvalidFileHandle, FSAStatus.InvalidFileHandle, FSErrorFlag.None),
    (FSAStatus.InvalidDirHandle, FSAStatus.InvalidDirHandle, FSErrorFlag.None),
    (FSAStatus.Cancelled, FSStatus.Cancelled, FSErrorFlag.All),
    (FSAStatus.EndOfDir, FSStatus.End, FSErrorFlag.All),
    (FSAStatus.EndOfFile, FSStatus.End, FSErrorFlag.All),
    (FSAStatus.MaxMountpoints, FSStatus.Max, FSErrorFlag.Max),
    (FSAStatus.MaxVolumes, FSStatus.Max, FSErrorFlag.Max),
    (FSAStatus.MaxClients, FSStatus.Max, FSErrorFlag.Max),
    (FSAStatus.MaxFiles, FSStatus.Max, FSErrorFlag.Max),
    (FSAStatus.MaxDirs, FSStatus.Max, FSErrorFlag.Max),
    (FSAStatus.AlreadyOpen, FSStatus.AlreadyOpen, FSErrorFlag.AlreadyOpen),
    (FSAStatus.NotFound, FSStatus.NotFound, FSErrorFlag.NotFound),
    (FSAStatus.AlreadyExists, FSStatus.Exists, FSErrorFlag.Exists),
    (FSAStatus.NotEmpty, FSStatus.Exists, FSErrorFlag.Exists),
    (FSAStatus.AccessError, FSStatus.AccessError, FSErrorFlag.AccessError),
    (FSAStatus.PermissionError, FSStatus.PermissionError, FSErrorFlag.PermissionError),
    (FSAStatus.StorageFull, FSStatus.StorageFull, FSErrorFlag.StorageFull),
    (FSAStatus.JournalFull, FSStatus.JournalFull, FSErrorFlag.JournalFull),
    (FSAStatus.UnsupportedCmd, FSStatus.UnsupportedCmd, FSErrorFlag.UnsupportedCmd),
    (FSAStatus.NotFile, FSStatus.NotFile, FSErrorFlag.NotFile),
    (FSAStatus.NotDir, FSStatus.NotDirectory, FSErrorFlag.NotDir),
    (FSAStatus.FileTooBig, FSStatus.FileTooBig, FSErrorFlag.FileTooBig) ]

/-- The claimed behaviour after translation to `(r, f)`: a hit of the
error mask sends the FSM to Fatal without delivery; otherwise the
translated status is delivered through the reply path. -/
def HandleResultSpec (client : FSClientBody) (block : FSCmdBlockBody)
    (r : Int) (f : Nat) : Prop :=
  (block.errorMask &&& f ≠ 0 →
    fsCmdBlockHandleResult client block =
      (HandleResultAction.fsmTransition FSVolumeState.Fatal,
       { client with lastError := block.fsaStatus, fsmState := FSVolumeState.Fatal })) ∧
  (block.errorMask &&& f = 0 →
    fsCmdBlockHandleResult client block =
      (HandleResultAction.deliver r,
       clearLastDequeued { client with lastError := block.fsaStatus } block))

lemma handleResult_normal_case (client : FSClientBody) (block : FSCmdBlockBody)
    (hreg : client.registered = true) (r : Int) (f : Nat)
    (hneg : block.fsaStatus < 0)
    (h1 : block.fsaStatus ≠ FSAStatus.MediaNotReady)
    (h2 : block.fsaStatus ≠ FSAStatus.WriteProtected)
    (ht : fsCmdBlockTranslateStatus block.fsaStatus = TranslateResult.normal r f) :
    HandleResultSpec client block r f := by
  constructor
  · intro hmask
    simp [fsCmdBlockHandleResult, hreg, h1, h2, hneg, ht, hmask]
  · intro hmask
    simp [fsCmdBlockHandleResult, hreg, h1, h2, hneg, ht, hmask]

/-- C1: for every negative, non-special FSA status, `fsCmdBlockHandleResult`
translates it to the FSStatus and errorFlags of the spec §4.7 table; if
`error_mask` intersects the resulting errorFlags the client FSM enters
Fatal and nothing is delivered, otherwise the translated FSStatus is
delivered through the reply path. -/
theorem fsCmdBlockHandleResult_translates_table47
    (s r : Int) (f : Nat) (hmem : (s, r, f) ∈ specTable47)
    (client : FSClientBody) (block : FSCmdBlockBody)
    (hreg : client.registered = true) (hs : block.fsaStatus = s) :
    HandleResultSpec client block r f := by
  have htable : ∀ e ∈ specTable47,
      fsCmdBlockTranslateStatus e.1 = TranslateResult.normal e.2.1 e.2.2 ∧
      e.1 < 0 ∧ e.1 ≠ FSAStatus.MediaNotReady ∧ e.1 ≠ FSAStatus.WriteProtected := by
    decide
  obtain ⟨ht, hneg, h1, h2⟩ := htable (s, r, f) hmem
  exact handleResult_normal_case client block hreg r f
    (hs ▸ hneg) (hs ▸ h1) (hs ▸ h2) (by rw [hs]; exact ht)

theorem fsCmdBlockHandleResult_translates_table47_witness :
    ((FSAStatus.StorageFull, FSStatus.StorageFull, FSErrorFlag.StorageFull) ∈ specTable47 ∧
     ({ registered := true, lastError := 0, fsmState := FSVolumeState.Ready,
        lastDequeuedCommand := none : FSClientBody }.registered = true) ∧
     ({ id := 0, fsaStatus := FSAStatus.StorageFull, errorMask := 0,
        status := FSCmdBlockStatus.InProgress, clientBody := some 0,
        finishCmdFn := some FinishFnTag.finishCmd : FSCmdBlockBody }.fsaStatus
          = FSAStatus.StorageFull)) ∧
    HandleResultSpec
      { registered := true, lastError := 0, fsmState := FSVolumeState.Ready,
        lastDequeuedCommand := none }
      { id := 0, fsaStatus := FSAStatus.StorageFull, errorMask := 0,
        status := FSCmdBlockStatus.InProgress, clientBody := some 0,
        finishCmdFn := some FinishFnTag.finishCmd }
      FSStatus.StorageFull FSErrorFlag.StorageFull :=
  ⟨⟨by decide, by decide, by decide⟩,
   fsCmdBlockHandleResult_translates_table47
     FSAStatus.StorageFull FSStatus.StorageFull FSErrorFlag.StorageFull (by decide)
     { registered := true, lastError := 0, fsmState := FSVolumeState.Ready,
       lastDequeuedCommand := none }
     { id := 0, fsaStatus := FSAStatus.StorageFull, errorMask := 0,
       status := FSCmdBlockStatus.InProgress, clientBody := some 0,
       finishCmdFn := some FinishFnTag.finishCmd }
     (by decide) (by decide)⟩

/-- C5: on a registered client, `MediaNotReady` sends the FSM to
`WrongMedia` and `WriteProtected` sends it to `MediaError`; in both
cases nothing is delivered and `lastError` has been set to the FSA
status first. -/
theorem fsCmdBlockHandleResult_media_transitions
    (client : FSClientBody) (block : FSCmdBlockBody)
    (hreg : client.registered = true) :
    (block.fsaStatus = FSAStatus.MediaNotReady →
      fsCmdBlockHandleResult client block =
        (HandleResultAction.fsmTransition FSVolumeState.WrongMedia,
         { client with lastError := block.fsaStatus,
                       fsmState := FSVolumeState.WrongMedia })) ∧
    (block.fsaStatus = FSAStatus.WriteProtected →
      fsCmdBlockHandleResult client block =
        (HandleResultAction.fsmTransition FSVolumeState.MediaError,
         { client with lastError := block.fsaStatus,
                       fsmState := FSVolumeState.MediaError })) := by
  constructor
  · intro hs
    simp [fsCmdBlockHandleResult, hreg, hs]
  · intro hs
    simp [fsCmdBlockHandleResult, hreg, hs,
          FSAStatus.WriteProtected, FSAStatus.MediaNotReady]

/-- A registered client used in the concrete media-status scenario. -/
def mediaScenarioClient : FSClientBody :=
  { registered := true, lastError := 0, fsmState := FSVolumeState.Ready,
    lastDequeuedCommand := some 3 }

/-- A command block whose FSA reply is `MediaNotReady`. -/
def mediaScenarioBlock : FSCmdBlockBody :=
  { id := 3, fsaStatus := FSAStatus.MediaNotReady, errorMask := FSErrorFlag.All,
    status := FSCmdBlockStatus.InProgress, clientBody := some 0,
    finishCmdFn := some FinishFnTag.finishCmd }

theorem fsCmdBlockHandleResult_media_transitions_witness :
    mediaScenarioClient.registered = true ∧
    ((mediaScenarioBlock.fsaStatus = FSAStatus.MediaNotReady →
      fsCmdBlockHandleResult mediaScenarioClient mediaScenarioBlock =
        (HandleResultAction.fsmTransition FSVolumeState.WrongMedia,
         { mediaScenarioClient with lastError := mediaScenarioBlock.fsaStatus,
                                    fsmState := FSVolumeState.WrongMedia })) ∧
     (mediaScenarioBlock.fsaStatus = FSAStatus.WriteProtected →
      fsCmdBlockHandleResult mediaScenarioClient mediaScenarioBlock =
        (HandleResultAction.fsmTransition FSVolumeState.MediaError,
         { mediaScenarioClient with lastError := mediaScenarioBlock.fsaStatus,
                                    fsmState := FSVolumeState.MediaError }))) :=
  ⟨by decide,
   fsCmdBlockHandleResult_media_transitions mediaScenarioClient mediaScenarioBlock
     (by decide)⟩

/-- The `FSAsyncData` carried into a prepare: an optional user callback
and an optional ioMsgQueue (pointers modelled as optional tokens). -/
structure FSAsyncData where
  userCallback : Option Nat
  ioMsgQueue : Option Nat
deriving DecidableEq, Repr

/-- Block fields stamped by `fsCmdBlockPrepareAsync`: the failure paths
must leave all of these untouched. -/
structure FSCmdBlockPrepState where
  status : FSCmdBlockStatus
  errorMask : Nat
  clientBody : Option Nat
  asyncData : Option FSAsyncData
deriving DecidableEq, Repr

/-- Embeds `fsCmdBlockPrepareAsync` (coreinit_fs_cmdblock.cpp lines
94-116).  `fsAsyncResultInit` lives in a file outside src/; modelled
from the spec ("initialises async result") as storing the async data on
the block and returning `FSStatus.OK`.  No message-queue send happens
anywhere in this function. -/
def fsCmdBlockPrepareAsync (clientBody : Nat) (block : FSCmdBlockPrepState)
    (errorMask : Nat) (asyncData : FSAsyncData) : Int × FSCmdBlockPrepState :=
  if block.status ≠ FSCmdBlockStatus.Initialised ∧
     block.status ≠ FSCmdBlockStatus.Cancelled then
    (FSStatus.FatalError, block)
  else if asyncData.userCallback.isSome ∧ asyncData.ioMsgQueue.isSome then
    (FSStatus.FatalError, block)
  else
    (FSStatus.OK,
     { block with
         errorMask := errorMask
         clientBody := some clientBody
         asyncData := some asyncData })

/-- C6: `fsCmdBlockPrepareAsync` fails with `FatalError` whenever the
block status is neither Initialised nor Cancelled, and whenever the
async data carries both a user callback and an ioMsgQueue; in either
case the block is returned untouched — no error mask, client link or
async result is stamped, and no message-queue entry is produced. -/
theorem fsCmdBlockPrepareAsync_fatal_error
    (clientBody : Nat) (block : FSCmdBlockPrepState)
    (errorMask : Nat) (asyncData : FSAsyncData)
    (hfail : (block.status ≠ FSCmdBlockStatus.Initialised ∧
              block.status ≠ FSCmdBlockStatus.Cancelled) ∨
             (asyncData.userCallback.isSome ∧ asyncData.ioMsgQueue.isSome)) :
    fsCmdBlockPrepareAsync clientBody block errorMask asyncData =
      (FSStatus.FatalError, block) := by
  unfold fsCmdBlockPrepareAsync
  by_cases h1 : block.status ≠ FSCmdBlockStatus.Initialised ∧
                block.status ≠ FSCmdBlockStatus.Cancelled
  · rw [if_pos h1]
  · rw [if_neg h1]
    have h2 : asyncData.userCallback.isSome ∧ asyncData.ioMsgQueue.isSome := by
      rcases hfail with h | h
      · exact absurd h h1
      · exact h
    rw [if_pos h2]

/-- A block in a state (`QueuedCommand`) that may not be prepared
again, together with async data carrying both completion channels. -/
def prepareScenarioBlock : FSCmdBlockPrepState :=
  { status := FSCmdBlockStatus.QueuedCommand, errorMask := 0,
    clientBody := none, asyncData := none }

theorem fsCmdBlockPrepareAsync_fatal_error_witness :
    ((prepareScenarioBlock.status ≠ FSCmdBlockStatus.Initialised ∧
      prepareScenarioBlock.status ≠ FSCmdBlockStatus.Cancelled) ∨
     ((some 5 : Option Nat).isSome ∧ (some 7 : Option Nat).isSome)) ∧
    fsCmdBlockPrepareAsync 1 prepareScenarioBlock 0
      { userCallback := some 5, ioMsgQueue := some 7 } =
      (FSStatus.FatalError, prepareScenarioBlock) :=
  ⟨Or.inl (by decide),
   fsCmdBlockPrepareAsync_fatal_error 1 prepareScenarioBlock 0
     { userCallback := some 5, ioMsgQueue := some 7 } (Or.inl (by decide))⟩

/-- Explicit 32-bit wrapping addition (`uint32_t` arithmetic). -/
def u32add (a b : Nat) : Nat := (a + b) % 4294967296

/-- Explicit 32-bit wrapping subtraction (`uint32_t` arithmetic). -/
def u32sub (a b : Nat) : Nat := (a + 4294967296 - b % 4294967296) % 4294967296

/-- Modelled from the spec: `FSMaxBytesPerRequest`, the per-IPC read
cap, is defined in a header outside src/; the spec's scenario fixes it
at 256 KB. -/
def FSMaxBytesPerRequest : Nat := 262144

/-- The chunked-read bookkeeping `blockBody->cmdData.readFile`. -/
structure FSReadState where
  bytesRead : Nat
  bytesRemaining : Nat
  readSize : Nat
  chunkSize : Nat
deriving DecidableEq, Repr

/-- The shim's `request.readFile` subrecord (fields touched by the
chunked-read driver); `readWithPos` models the
`readFlags & FSReadFlag::ReadWithPos` test. -/
structure FSAShimReadRequest where
  buffer : Nat
  size : Nat
  count : Nat
  pos : Nat
  readWithPos : Bool
deriving DecidableEq, Repr

/-- Ioctlv vector slot 1 of the shim (data buffer pointer + length). -/
structure IoctlvVec where
  paddr : Nat
  len : Nat
deriving DecidableEq, Repr

/-- The block state seen by `fsCmdBlockFinishReadCmd`. -/
structure ReadBlock where
  readState : FSReadState
  readRequest : FSAShimReadRequest
  ioctlvVec1 : IoctlvVec
deriving DecidableEq, Repr

/-- Outcome of one `fsCmdBlockFinishReadCmd` step: either the command
is finished (delegating to `fsCmdBlockFinishCmd` with the given final
status) or it is requeued (`insertAtFront`, installed finish function,
updated block state). -/
inductive ReadCmdOutcome where
  | finish (status : Int)
  | requeue (insertAtFront : Bool) (finishFn : FinishFnTag) (block : ReadBlock)
deriving DecidableEq, Repr

/-- The `readSize` update for the next chunk (coreinit_fs_cmdblock.cpp
lines 522-526). -/
def fsReadNextSize (remaining : Nat) : Nat :=
  if remaining > FSMaxBytesPerRequest then FSMaxBytesPerRequest else remaining

/-- Embeds `fsCmdBlockFinishReadCmd` (coreinit_fs_cmdblock.cpp lines
500-543).  `result ≥ 0` is the byte count of the chunk just read
(`static_cast<uint32_t>(result)`). -/
def fsCmdBlockFinishReadCmd (b : ReadBlock) (result : Int) : ReadCmdOutcome :=
  if result < 0 then
    ReadCmdOutcome.finish result
  else if u32sub b.readState.bytesRemaining (result.toNat % 4294967296) = 0 ∨
          result.toNat % 4294967296 < b.readState.readSize then
    ReadCmdOutcome.finish
      ((u32add b.readState.bytesRead (result.toNat % 4294967296)
          / b.readState.chunkSize : Nat) : Int)
  else
    ReadCmdOutcome.requeue false FinishFnTag.finishReadCmd
      { readState :=
          { bytesRead := u32add b.readState.bytesRead (result.toNat % 4294967296)
            bytesRemaining := u32sub b.readState.bytesRemaining (result.toNat % 4294967296)
            readSize :=
              fsReadNextSize (u32sub b.readState.bytesRemaining (result.toNat % 4294967296))
            chunkSize := b.readState.chunkSize }
        readRequest :=
          { buffer := u32add b.readRequest.buffer (result.toNat % 4294967296)
            size :=
              fsReadNextSize (u32sub b.readState.bytesRemaining (result.toNat % 4294967296))
            count := 1
            pos :=
              if b.readRequest.readWithPos then
                u32add b.readRequest.pos (result.toNat % 4294967296)
              else
                b.readRequest.pos
            readWithPos := b.readRequest.readWithPos }
        ioctlvVec1 :=
          { paddr := u32add b.readRequest.buffer (result.toNat % 4294967296)
            len :=
              fsReadNextSize (u32sub b.readState.bytesRemaining (result.toNat % 4294967296)) } }

/-- The first IPC of the spec's 300 KB read scenario: 307200 bytes
remain, the first request reads the 256 KB cap, chunk size 4096. -/
def readScenarioBlock1 : ReadBlock :=
  { readState := { bytesRead := 0, bytesRemaining := 307200,
                   readSize := 262144, chunkSize := 4096 }
    readRequest := { buffer := 268435456, size := 262144, count := 1,
                     pos := 0, readWithPos := false }
    ioctlvVec1 := { paddr := 268435456, len := 262144 } }

/-- The block state after the first full 256 KB chunk of the 300 KB
scenario has been consumed. -/
def readScenarioBlock2 : ReadBlock :=
  { readState := { bytesRead := 262144, bytesRemaining := 45056,
                   readSize := 45056, chunkSize := 4096 }
    readRequest := { buffer := 268697600, size := 45056, count := 1,
                     pos := 0, readWithPos := false }
    ioctlvVec1 := { paddr := 268697600, len := 45056 } }

/-- The spec's 300 KB scenario: the first reply (a full 256 KB chunk)
requeues the command once, and the second reply (the remaining 44 KB)
finishes with status `75 = 307200 / 4096` — two IPC round-trips in
total. -/
def ReadScenario300K : Prop :=
  fsCmdBlockFinishReadCmd readScenarioBlock1 262144 =
    ReadCmdOutcome.requeue false FinishFnTag.finishReadCmd readScenarioBlock2 ∧
  fsCmdBlockFinishReadCmd readScenarioBlock2 45056 = ReadCmdOutcome.finish 75

/-- Completion behaviour claimed for a non-negative per-reply count
`n = result.toNat`: the step finishes exactly when the remaining count
reaches zero or the reply is partial, and then the reported status is
the accumulated byte count divided by the chunk size. -/
def FinishReadCompletionSpec (b : ReadBlock) (result : Int) : Prop :=
  ((∃ s, fsCmdBlockFinishReadCmd b result = ReadCmdOutcome.finish s) ↔
    (b.readState.bytesRemaining - result.toNat = 0 ∨
     result.toNat < b.readState.readSize)) ∧
  ((b.readState.bytesRemaining - result.toNat = 0 ∨
    result.toNat < b.readState.readSize) →
    fsCmdBlockFinishReadCmd b result =
      ReadCmdOutcome.finish
        (((b.readState.bytesRead + result.toNat) / b.readState.chunkSize : Nat) : Int))

/-- C2: for every chunked read whose reply is a non-negative byte count
`n` (with the in-range side conditions the read setup guarantees),
`fsCmdBlockFinishReadCmd` finalises exactly when `bytes_remaining`
reaches 0 or the reply is partial (`n < read_size`), reporting
`bytes_read / chunk_size`; and the concrete 300 KB / 4096-chunk /
256 KB-cap read takes two IPC round-trips and finishes with status
75. -/
theorem fsCmdBlockFinishReadCmd_completion (b : ReadBlock) (result : Int)
    (h0 : 0 ≤ result)
    (hn : result.toNat ≤ b.readState.readSize)
    (hrs : b.readState.readSize ≤ b.readState.bytesRemaining)
    (hrem : b.readState.bytesRemaining < 4294967296)
    (hbr : b.readState.bytesRead + result.toNat < 4294967296)
    (hchunk : 0 < b.readState.chunkSize) :
    FinishReadCompletionSpec b result ∧ ReadScenario300K := by
  constructor
  · have hnmod : result.toNat % 4294967296 = result.toNat :=
      Nat.mod_eq_of_lt (by omega)
    have hsub : u32sub b.readState.bytesRemaining (result.toNat % 4294967296)
        = b.readState.bytesRemaining - result.toNat := by
      unfold u32sub
      omega
    have hadd : u32add b.readState.bytesRead (result.toNat % 4294967296)
        = b.readState.bytesRead + result.toNat := by
      unfold u32add
      omega
    have hnotneg : ¬ result < 0 := not_lt.mpr h0
    constructor
    · constructor
      · intro hex
        obtain ⟨s, hs⟩ := hex
        by_contra hcond
        unfold fsCmdBlockFinishReadCmd at hs
        rw [if_neg hnotneg, hsub, hadd, hnmod, if_neg hcond] at hs
        exact ReadCmdOutcome.noConfusion hs
      · intro hcond
        refine ⟨(((b.readState.bytesRead + result.toNat) / b.readState.chunkSize : Nat) : Int),
          ?_⟩
        unfold fsCmdBlockFinishReadCmd
        rw [if_neg hnotneg, hsub, hadd, hnmod, if_pos hcond]
    · intro hcond
      unfold fsCmdBlockFinishReadCmd
      rw [if_neg hnotneg, hsub, hadd, hnmod, if_pos hcond]
  · constructor
    · decide
    · decide

theorem fsCmdBlockFinishReadCmd_completion_witness :
    (0 ≤ (45056 : Int) ∧
     (45056 : Int).toNat ≤ readScenarioBlock2.readState.readSize ∧
     readScenarioBlock2.readState.readSize ≤ readScenarioBlock2.readState.bytesRemaining ∧
     readScenarioBlock2.readState.bytesRemaining < 4294967296 ∧
     readScenarioBlock2.readState.bytesRead + (45056 : Int).toNat < 4294967296 ∧
     0 < readScenarioBlock2.readState.chunkSize) ∧
    (FinishReadCompletionSpec readScenarioBlock2 45056 ∧ ReadScenario300K) :=
  ⟨⟨by decide, by decide, by decide, by decide, by decide, by decide⟩,
   fsCmdBlockFinishReadCmd_completion readScenarioBlock2 45056
     (by decide) (by decide) (by decide) (by decide) (by decide) (by decide)⟩

lemma fsReadNextSize_eq_min (m : Nat) : fsReadNextSize m = min FSMaxBytesPerRequest m := by
  unfold fsReadNextSize
  split <;> omega

/-- C3 (amended): when the read is not yet complete (the reply was a
full chunk and bytes remain), `fsCmdBlockFinishReadCmd` sets
`read_size` to `min(FSMaxBytesPerRequest, bytes_remaining)`, advances
the buffer pointer by the bytes just read, advances the position if
ReadWithPos, rewrites ioctlv vector slot 1, and requeues the block with
the same finish function — at the BACK of the client's command queue
(`insertAtFront = FALSE`), not at the front. -/
theorem fsCmdBlockFinishReadCmd_continuation (b : ReadBlock) (result : Int)
    (h0 : 0 ≤ result)
    (hfullchunk : result.toNat = b.readState.readSize)
    (hmore : b.readState.readSize < b.readState.bytesRemaining)
    (hrem : b.readState.bytesRemaining < 4294967296)
    (hbr : b.readState.bytesRead + result.toNat < 4294967296)
    (hbuf : b.readRequest.buffer + result.toNat < 4294967296)
    (hpos : b.readRequest.pos + result.toNat < 4294967296) :
    fsCmdBlockFinishReadCmd b result =
      ReadCmdOutcome.requeue false FinishFnTag.finishReadCmd
        { readState :=
            { bytesRead := b.readState.bytesRead + result.toNat
              bytesRemaining := b.readState.bytesRemaining - result.toNat
              readSize :=
                min FSMaxBytesPerRequest (b.readState.bytesRemaining - result.toNat)
              chunkSize := b.readState.chunkSize }
          readRequest :=
            { buffer := b.readRequest.buffer + result.toNat
              size := min FSMaxBytesPerRequest (b.readState.bytesRemaining - result.toNat)
              count := 1
              pos :=
                if b.readRequest.readWithPos then b.readRequest.pos + result.toNat
                else b.readRequest.pos
              readWithPos := b.readRequest.readWithPos }
          ioctlvVec1 :=
            { paddr := b.readRequest.buffer + result.toNat
              len := min FSMaxBytesPerRequest (b.readState.bytesRemaining - result.toNat) } } := by
  have hnmod : result.toNat % 4294967296 = result.toNat :=
    Nat.mod_eq_of_lt (by omega)
  have hsub : u32sub b.readState.bytesRemaining (result.toNat % 4294967296)
      = b.readState.bytesRemaining - result.toNat := by
    unfold u32sub
    omega
  have hadd : u32add b.readState.bytesRead (result.toNat % 4294967296)
      = b.readState.bytesRead + result.toNat := by
    unfold u32add
    omega
  have haddbuf : u32add b.readRequest.buffer (result.toNat % 4294967296)
      = b.readRequest.buffer + result.toNat := by
    unfold u32add
    omega
  have haddpos : u32add b.readRequest.pos (result.toNat % 4294967296)
      = b.readRequest.pos + result.toNat := by
    unfold u32add
    omega
  have hnotneg : ¬ result < 0 := not_lt.mpr h0
  have hcond : ¬(b.readState.bytesRemaining - result.toNat = 0 ∨
      result.toNat < b.readState.readSize) := by
    push_neg
    omega
  unfold fsCmdBlockFinishReadCmd
  rw [if_neg hnotneg, hsub, hadd, haddbuf, haddpos, hnmod, if_neg hcond,
      fsReadNextSize_eq_min]

/-- Whether a `fsCmdBlockFinishReadCmd` outcome is a requeue. -/
def ReadCmdOutcome.isRequeue : ReadCmdOutcome → Bool
  | ReadCmdOutcome.requeue _ _ _ => true
  | ReadCmdOutcome.finish _ => false

/-- The `insertAtFront` flag of a requeue outcome (`false` for a
finish). -/
def ReadCmdOutcome.requeuedAtFront : ReadCmdOutcome → Bool
  | ReadCmdOutcome.requeue front _ _ => front
  | ReadCmdOutcome.finish _ => false

/-- The finish function installed by a requeue outcome. -/
def ReadCmdOutcome.requeueFinishFn : ReadCmdOutcome → Option FinishFnTag
  | ReadCmdOutcome.requeue _ fn _ => some fn
  | ReadCmdOutcome.finish _ => none

/-- C3 counterexample: in the concrete continuation step of the 300 KB
scenario the command IS requeued with the same (read) finish function,
but with `insertAtFront = FALSE` (the source passes `FALSE` at
coreinit_fs_cmdblock.cpp line 542), so the claim's "requeues the block
at the front" is false. -/
theorem fsCmdBlockFinishReadCmd_requeues_at_back :
    (fsCmdBlockFinishReadCmd readScenarioBlock1 262144).isRequeue = true ∧
    (fsCmdBlockFinishReadCmd readScenarioBlock1 262144).requeueFinishFn
      = some FinishFnTag.finishReadCmd ∧
    (fsCmdBlockFinishReadCmd readScenarioBlock1 262144).requeuedAtFront = false := by
  refine ⟨by decide, by decide, by decide⟩

theorem fsCmdBlockFinishReadCmd_continuation_witness :
    (0 ≤ (262144 : Int) ∧
     (262144 : Int).toNat = readScenarioBlock1.readState.readSize ∧
     readScenarioBlock1.readState.readSize < readScenarioBlock1.readState.bytesRemaining ∧
     readScenarioBlock1.readState.bytesRemaining < 4294967296 ∧
     readScenarioBlock1.readState.bytesRead + (262144 : Int).toNat < 4294967296 ∧
     readScenarioBlock1.readRequest.buffer + (262144 : Int).toNat < 4294967296 ∧
     readScenarioBlock1.readRequest.pos + (262144 : Int).toNat < 4294967296) ∧
    fsCmdBlockFinishReadCmd readScenarioBlock1 262144 =
      ReadCmdOutcome.requeue false FinishFnTag.finishReadCmd
        { readState :=
            { bytesRead := readScenarioBlock1.readState.bytesRead + (262144 : Int).toNat
              bytesRemaining :=
                readScenarioBlock1.readState.bytesRemaining - (262144 : Int).toNat
              readSize :=
                min FSMaxBytesPerRequest
                  (readScenarioBlock1.readState.bytesRemaining - (262144 : Int).toNat)
              chunkSize := readScenarioBlock1.readState.chunkSize }
          readRequest :=
            { buffer := readScenarioBlock1.readRequest.buffer + (262144 : Int).toNat
              size :=
                min FSMaxBytesPerRequest
                  (readScenarioBlock1.readState.bytesRemaining - (262144 : Int).toNat)
              count := 1
              pos :=
                if readScenarioBlock1.readRequest.readWithPos then
                  readScenarioBlock1.readRequest.pos + (262144 : Int).toNat
                else readScenarioBlock1.readRequest.pos
              readWithPos := readScenarioBlock1.readRequest.readWithPos }
          ioctlvVec1 :=
            { paddr := readScenarioBlock1.readRequest.buffer + (262144 : Int).toNat
              len :=
                min FSMaxBytesPerRequest
                  (readScenarioBlock1.readState.bytesRemaining - (262144 : Int).toNat) } } :=
  ⟨⟨by decide, by decide, by decide, by decide, by decide, by decide, by decide⟩,
   fsCmdBlockFinishReadCmd_continuation readScenarioBlock1 262144
     (by decide) (by decide) (by decide) (by decide) (by decide) (by decide) (by decide)⟩
